import Mathlib

/-!
Shallow embedding of `src/index.js` of pr-jira-checker-action.

The program is a GitHub Action: it lists the commits of a pull request,
extracts Jira ticket keys from the commit messages with a configurable
regular-expression pattern, fetches each issue's metadata from the Jira
REST API, groups the fetched issues by their "Story" parent, queries the
children of each such parent, collects the children missing from the
commit-derived key set, renders a Markdown report and replaces the pull
request description with it.

External effects are modelled as oracle functions passed in the run
environment: the Jira per-issue endpoint is `issueOracle` (returning
`none` for a non-success HTTP response), the Jira child-search endpoint
is `childOracle` (again `none` for failure), and the regular-expression
engine is a matching function `Option (String → List String)` where
`none` stands for a pattern whose compilation throws.
-/

set_option autoImplicit false

namespace PrJiraChecker

/-- A parent reference as built by `getJiraIssueInfo` (lines 31-35 of
`src/index.js`): key, issue-type name and summary of the parent issue. -/
structure ParentRef where
  key : String
  type : String
  title : String
deriving DecidableEq, Repr

/-- An issue as produced by `getStoryChildren` (lines 60-64): key,
issue-type name and summary, no parent field. -/
structure Issue where
  key : String
  type : String
  title : String
deriving DecidableEq, Repr

/-- An issue as produced by `getJiraIssueInfo` (lines 21-38): key,
issue-type name, summary, and an optional Story parent. -/
structure IssueInfo where
  key : String
  type : String
  title : String
  parent : Option ParentRef := none
deriving DecidableEq, Repr

/-- The raw parent object inside a Jira issue response:
`data.fields.parent.key`, `data.fields.parent.fields.issuetype.name`,
`data.fields.parent.fields.summary`. -/
structure RawParent where
  key : String
  issuetype : String
  summary : String
deriving DecidableEq, Repr

/-- The fields of a raw Jira single-issue response consumed by
`getJiraIssueInfo`: `fields.issuetype.name`, `fields.summary`, and the
optional `fields.parent`. -/
structure RawIssueData where
  issuetype : String
  summary : String
  parent : Option RawParent := none
deriving DecidableEq, Repr

/-- One element of `data.issues` of the Jira search response consumed by
`getStoryChildren`: `issue.key`, `issue.fields.issuetype.name`,
`issue.fields.summary`. -/
structure RawChild where
  key : String
  issuetype : String
  summary : String
deriving DecidableEq, Repr

/-- The outcome of one `fetch(...)` call: `reject msg` models the
promise rejecting (for example a network error when the tracker is
unreachable — `node-fetch` rejects, nothing inside the calling
function catches it, and the exception propagates); `resolve none`
models a response with `!response.ok`; `resolve (some a)` models a
successful response carrying the consumed fields. -/
inductive FetchOutcome (α : Type) where
  | reject : String → FetchOutcome α
  | resolve : Option α → FetchOutcome α
deriving DecidableEq, Repr

/-- `getJiraIssueInfo` (lines 5-39). On a rejected fetch the `await`
rethrows, so the function itself errors (`Except.error`).  On
`!response.ok` it warns and returns `null`, modelled as
`Except.ok none`.  On success it builds the result record, attaching a
parent only when the response has a parent whose issue-type name
equals `"Story"`. -/
def getJiraIssueInfo (issueKey : String) (response : FetchOutcome RawIssueData) :
    Except String (Option IssueInfo) :=
  match response with
  | FetchOutcome.reject msg => Except.error msg
  | FetchOutcome.resolve none => Except.ok none
  | FetchOutcome.resolve (some data) =>
    Except.ok (some
      { key := issueKey
        type := data.issuetype
        title := data.summary
        parent :=
          match data.parent with
          | some p =>
            if p.issuetype = "Story" then
              some { key := p.key, type := "Story", title := p.summary }
            else none
          | none => none })

/-- `getStoryChildren` (lines 41-65). On a rejected fetch the `await`
rethrows (`Except.error`); on `!response.ok` it warns and returns
`[]`; on success each element of `data.issues` is mapped to an
`Issue`. -/
def getStoryChildren (response : FetchOutcome (List RawChild)) :
    Except String (List Issue) :=
  match response with
  | FetchOutcome.reject msg => Except.error msg
  | FetchOutcome.resolve none => Except.ok []
  | FetchOutcome.resolve (some issues) =>
    Except.ok (issues.map fun issue =>
      { key := issue.key, type := issue.issuetype, title := issue.summary })

/-- A value of the `storyMap` (line 153): the first-seen `ParentRef`
for the key and the ordered list of fetched issues appended under it. -/
structure Group where
  story : ParentRef
  children : List IssueInfo
deriving DecidableEq, Repr

/-- One `forEach` step on the story map (lines 158-165): if the key is
absent, a fresh entry with this issue's parent and an empty child list
is inserted at the end (JS `Map` preserves insertion order); then the
issue is appended to that entry's children.  Modelled as an
insertion-ordered association list updated at the first matching key
(keys are unique by construction, as in a JS `Map`). -/
def addToGroup : List (String × Group) → ParentRef → IssueInfo →
    List (String × Group)
  | [], p, issue => [(p.key, { story := p, children := [issue] })]
  | e :: rest, p, issue =>
    if e.1 = p.key then
      (e.1, { e.2 with children := e.2.children ++ [issue] }) :: rest
    else
      e :: addToGroup rest p issue

/-- The `jiraIssuesInfo.forEach` loop of lines 156-169, with the
mutable `storyMap` and `orphanIssues` threaded as an accumulator. -/
def aggregateAux (acc : List (String × Group) × List IssueInfo) :
    List IssueInfo → List (String × Group) × List IssueInfo
  | [] => acc
  | issue :: rest =>
    match issue.parent with
    | some p => aggregateAux (addToGroup acc.1 p issue, acc.2) rest
    | none => aggregateAux (acc.1, acc.2 ++ [issue]) rest

/-- Lines 153-169 of `generateStructuredOutput`: partition the fetched
issues into the story map and the orphan list, both initially empty. -/
def aggregate (jiraIssuesInfo : List IssueInfo) :
    List (String × Group) × List IssueInfo :=
  aggregateAux ([], []) jiraIssuesInfo

/-- Lines 171-188 of `generateStructuredOutput`: for every key of the
story map query its children (`getStoryChildren` applied to the child
oracle's response), keep those whose key is not in
`committedIssueKeys = new Set(ticketIds)`, and accumulate them into
`missingChildIssues`.  The queries are joined with `Promise.all`: if
one of them rethrows a rejected fetch, the join rejects and the error
propagates out of `generateStructuredOutput`.  The JS pushes happen in
promise-resolution order; the model uses story-map order, which the
set-membership claims do not depend on. -/
def computeMissingChildren (storyMap : List (String × Group))
    (ticketIds : List String)
    (childOracle : String → FetchOutcome (List RawChild)) :
    Except String (List Issue) :=
  match storyMap with
  | [] => Except.ok []
  | e :: rest =>
    match getStoryChildren (childOracle e.1) with
    | Except.error msg => Except.error msg
    | Except.ok children =>
      match computeMissingChildren rest ticketIds childOracle with
      | Except.error msg => Except.error msg
      | Except.ok tail =>
        Except.ok ((children.filter fun child =>
          !(ticketIds.contains child.key)) ++ tail)

/-- `getJiraLink` (lines 150-151). -/
def getJiraLink (baseUrl issueKey : String) : String :=
  "[" ++ issueKey ++ "](" ++ baseUrl ++ "/browse/" ++ issueKey ++ ")"

/-- The `for (const [_, data] of storyMap)` loop of lines 192-200: one
block per group, a Story line followed by one bullet per child and a
blank line. -/
def renderStoryBlocks (baseUrl : String) (storyMap : List (String × Group)) :
    String :=
  String.join (storyMap.map fun e =>
    "#### Story " ++ getJiraLink baseUrl e.2.story.key ++ ": " ++
      e.2.story.title ++ "\n" ++
    String.join (e.2.children.map fun child =>
      "- " ++ getJiraLink baseUrl child.key ++ ": [" ++ child.type ++ "] " ++
        child.title ++ "\n") ++
    "\n")

/-- Lines 202-208: the `#### Other Issues` block, emitted only when
`orphanIssues.length > 0`. -/
def renderOrphanSection (baseUrl : String) (orphanIssues : List IssueInfo) :
    String :=
  if orphanIssues.length > 0 then
    "#### Other Issues\n" ++
    String.join (orphanIssues.map fun issue =>
      "- " ++ getJiraLink baseUrl issue.key ++ ": [" ++ issue.type ++ "] " ++
        issue.title ++ "\n") ++
    "\n"
  else ""

/-- Lines 210-217: the `#### Missing Child Issues` block, emitted only
when `missingChildIssues.length > 0`. -/
def renderMissingSection (baseUrl : String) (missingChildIssues : List Issue) :
    String :=
  if missingChildIssues.length > 0 then
    "#### Missing Child Issues\n" ++
    "The following child issues from related Stories are not included in this PR:\n\n" ++
    String.join (missingChildIssues.map fun issue =>
      "- " ++ getJiraLink baseUrl issue.key ++ ": [" ++ issue.type ++ "] " ++
        issue.title ++ "\n")
  else ""

/-- Lines 190-219: the report text built from the aggregation results. -/
def renderReport (storyMap : List (String × Group))
    (orphanIssues : List IssueInfo) (missingChildIssues : List Issue)
    (baseUrl : String) : String :=
  "### Related Jira Issues\n\n" ++
  renderStoryBlocks baseUrl storyMap ++
  renderOrphanSection baseUrl orphanIssues ++
  renderMissingSection baseUrl missingChildIssues

/-- `generateStructuredOutput` (lines 143-220): aggregate the fetched
issues, compute the missing children through the child oracle
(propagating a rejected child query as an error), render the
report. -/
def generateStructuredOutput (jiraIssuesInfo : List IssueInfo)
    (ticketIds : List String) (baseUrl : String)
    (childOracle : String → FetchOutcome (List RawChild)) :
    Except String String :=
  let p := aggregate jiraIssuesInfo
  match computeMissingChildren p.1 ticketIds childOracle with
  | Except.error msg => Except.error msg
  | Except.ok missingChildIssues =>
    Except.ok (renderReport p.1 p.2 missingChildIssues baseUrl)

/-- `[...new Set(xs)]`: deduplicate keeping the first occurrence of
each element, preserving insertion order. -/
def jsSetDedup (xs : List String) : List String :=
  xs.foldl (fun acc x => if acc.contains x then acc else acc ++ [x]) []

/-- The pure part of lines 99-109 once the pattern compiled: for each
commit message collect the global matches (`null` becomes `[]`),
flatten, deduplicate through `new Set`. `matcher` is the compiled
pattern's global-match function. -/
def extractIdsList (matcher : String → List String) (commits : List String) :
    List String :=
  jsSetDedup (commits.map matcher).flatten

/-- The message of the `SyntaxError` thrown by `new RegExp` on an
invalid pattern, caught at line 138 and passed to `core.setFailed`. -/
def invalidRegexMessage : String := "Invalid regular expression"

/-- Lines 99-109 with the possibility that the configured pattern does
not compile.  `new RegExp(jiraTicketPattern, "g")` runs inside the
`commits.map` callback, so an invalid pattern throws on the first
commit message — and throws not at all when the commit list is empty. -/
def extractTicketIds (matcher : Option (String → List String))
    (commits : List String) : Except String (List String) :=
  match matcher with
  | some f => Except.ok (extractIdsList f commits)
  | none =>
    match commits with
    | [] => Except.ok (jsSetDedup [])
    | _ :: _ => Except.error invalidRegexMessage

/-- Outcome of one invocation of `run`: `failed msg` models
`core.setFailed(msg)`, `notice` models the early return with
`core.notice` at lines 111-114, `updated body` models the
`octokit.rest.pulls.update` call with the rendered body. -/
inductive RunResult where
  | failed : String → RunResult
  | notice : RunResult
  | updated : String → RunResult
deriving DecidableEq, Repr

/-- The environment of one run: the GitHub context, the commit
messages of the pull request, the compiled ticket pattern (`none` when
`new RegExp` would throw), the Jira base URL and the two Jira
endpoints as oracles. -/
structure RunEnv where
  hasPullRequest : Bool
  prNumber : Option Nat
  commits : List String
  matcher : Option (String → List String)
  baseUrl : String
  issueOracle : String → FetchOutcome RawIssueData
  childOracle : String → FetchOutcome (List RawChild)

/-- Lines 117-121: the per-ticket metadata lookups joined with
`Promise.all`.  If one lookup rethrows a rejected fetch, the join
rejects with that error; otherwise the list of per-ticket results
(`null` for a non-success response) is returned. -/
def fetchIssues (ticketIds : List String)
    (issueOracle : String → FetchOutcome RawIssueData) :
    Except String (List (Option IssueInfo)) :=
  match ticketIds with
  | [] => Except.ok []
  | k :: rest =>
    match getJiraIssueInfo k (issueOracle k) with
    | Except.error msg => Except.error msg
    | Except.ok info =>
      match fetchIssues rest issueOracle with
      | Except.error msg => Except.error msg
      | Except.ok tail => Except.ok (info :: tail)

/-- `run` (lines 67-141).  Returns the outcome together with the list
of Jira request keys issued (single-issue lookups, then child
searches), used to state that an empty extraction makes no tracker
call.  `if (!prNumber)` is JS-truthiness: both a missing number and
the number `0` fail.  Any error propagating out of the fetch join or
out of `generateStructuredOutput` is caught by the top-level
`try`/`catch` of lines 68 and 138-140 and surfaces as
`core.setFailed(error.message)`. -/
def run (env : RunEnv) : RunResult × List String :=
  if !env.hasPullRequest then
    (RunResult.failed "This action can only be run on pull request events", [])
  else
    match env.prNumber with
    | none =>
      (RunResult.failed "Could not get pull request number from context", [])
    | some n =>
      if n = 0 then
        (RunResult.failed "Could not get pull request number from context", [])
      else
        match extractTicketIds env.matcher env.commits with
        | Except.error e => (RunResult.failed e, [])
        | Except.ok ticketIds =>
          if ticketIds.length = 0 then (RunResult.notice, [])
          else
            match fetchIssues ticketIds env.issueOracle with
            | Except.error msg => (RunResult.failed msg, ticketIds)
            | Except.ok jiraIssuesInfo =>
              let filtered := jiraIssuesInfo.filterMap id
              match generateStructuredOutput filtered ticketIds env.baseUrl
                  env.childOracle with
              | Except.error msg =>
                (RunResult.failed msg,
                 ticketIds ++ (aggregate filtered).1.map Prod.fst)
              | Except.ok output =>
                (RunResult.updated output,
                 ticketIds ++ (aggregate filtered).1.map Prod.fst)

/-- All children of all story-map groups, in story-map order. -/
def childrenFlat (storyMap : List (String × Group)) : List IssueInfo :=
  (storyMap.map fun e => e.2.children).flatten

/-- The per-group invariant: every child stored under a story-map key
has a parent reference carrying exactly that key. -/
def GroupInv (sm : List (String × Group)) : Prop :=
  ∀ e ∈ sm, ∀ c ∈ e.2.children, ∃ p, c.parent = some p ∧ p.key = e.1

/-! ## Lemmas about `jsSetDedup` -/

theorem mem_dedupFoldl (xs : List String) (acc : List String) (y : String) :
    y ∈ xs.foldl (fun acc x => if acc.contains x then acc else acc ++ [x]) acc
      ↔ y ∈ acc ∨ y ∈ xs := by
  induction xs generalizing acc with
  | nil => simp
  | cons x xs ih =>
    simp only [List.foldl_cons, ih]
    by_cases h : acc.contains x
    · simp only [h, if_pos]
      constructor
      · intro hc
        rcases hc with hc | hc
        · exact Or.inl hc
        · exact Or.inr (List.mem_cons_of_mem _ hc)
      · intro hc
        rcases hc with hc | hc
        · exact Or.inl hc
        · rcases List.mem_cons.mp hc with rfl | hc
          · exact Or.inl (by simpa using h)
          · exact Or.inr hc
    · simp only [h, if_neg, Bool.false_eq_true, not_false_iff, List.mem_append,
        List.mem_singleton]
      constructor
      · intro hc
        rcases hc with (hc | rfl) | hc
        · exact Or.inl hc
        · exact Or.inr (List.mem_cons_self _ _)
        · exact Or.inr (List.mem_cons_of_mem _ hc)
      · intro hc
        rcases hc with hc | hc
        · exact Or.inl (Or.inl hc)
        · rcases List.mem_cons.mp hc with rfl | hc
          · exact Or.inl (Or.inr rfl)
          · exact Or.inr hc

theorem nodup_dedupFoldl (xs : List String) (acc : List String)
    (hacc : acc.Nodup) :
    (xs.foldl (fun acc x => if acc.contains x then acc else acc ++ [x])
      acc).Nodup := by
  induction xs generalizing acc with
  | nil => simpa using hacc
  | cons x xs ih =>
    simp only [List.foldl_cons]
    by_cases h : acc.contains x = true
    · rw [if_pos h]
      exact ih acc hacc
    · rw [if_neg h]
      refine ih (acc ++ [x]) ?_
      have hx : x ∉ acc := by simpa using h
      simp [List.nodup_append, hacc, hx]

theorem mem_jsSetDedup (xs : List String) (y : String) :
    y ∈ jsSetDedup xs ↔ y ∈ xs := by
  unfold jsSetDedup
  rw [mem_dedupFoldl]
  simp

theorem nodup_jsSetDedup (xs : List String) : (jsSetDedup xs).Nodup :=
  nodup_dedupFoldl xs [] List.nodup_nil

theorem mem_extractIdsList (f : String → List String) (commits : List String)
    (y : String) :
    y ∈ extractIdsList f commits ↔ ∃ m ∈ commits, y ∈ f m := by
  simp [extractIdsList, mem_jsSetDedup, List.mem_flatten, List.mem_map]

/-! ## C3: extraction is the deduplicated union of per-message matches -/

/-- C3: for every commit-message list and every pattern that compiles
to the matching function `f`, the extraction of lines 99-109 succeeds
and returns `extractIdsList f commits`; a key is in the result exactly
when some commit message's global-match list contains it (the
deduplicated union, as a set); the result has no duplicates; empty
input, or no matches in any message, yields the empty list. -/
theorem extraction_is_dedup_union (f : String → List String)
    (commits : List String) :
    extractTicketIds (some f) commits = Except.ok (extractIdsList f commits)
    ∧ (∀ y, y ∈ extractIdsList f commits ↔ ∃ m ∈ commits, y ∈ f m)
    ∧ (extractIdsList f commits).Nodup
    ∧ extractIdsList f [] = []
    ∧ ((∀ m ∈ commits, f m = []) → extractIdsList f commits = []) := by
  refine ⟨rfl, mem_extractIdsList f commits, ?_, rfl, ?_⟩
  · exact nodup_jsSetDedup _
  · intro hnone
    refine List.eq_nil_iff_forall_not_mem.mpr fun y hy => ?_
    rcases (mem_extractIdsList f commits y).mp hy with ⟨m, hm, hym⟩
    rw [hnone m hm] at hym
    exact List.not_mem_nil y hym

/-- C3 witness: the theorem instantiated at the spec's scenario,
commits `["RC-1 fix", "RC-2 also RC-1"]` with a matcher extracting the
`RC-` tokens of each message. -/
theorem extraction_is_dedup_union_witness :
    extractTicketIds
        (some fun m => (m.splitOn " ").filter fun w => w.startsWith "RC-")
        ["RC-1 fix", "RC-2 also RC-1"]
      = Except.ok (extractIdsList
          (fun m => (m.splitOn " ").filter fun w => w.startsWith "RC-")
          ["RC-1 fix", "RC-2 also RC-1"])
    ∧ (∀ y, y ∈ extractIdsList
          (fun m => (m.splitOn " ").filter fun w => w.startsWith "RC-")
          ["RC-1 fix", "RC-2 also RC-1"]
        ↔ ∃ m ∈ ["RC-1 fix", "RC-2 also RC-1"],
            y ∈ (m.splitOn " ").filter fun w => w.startsWith "RC-")
    ∧ (extractIdsList
        (fun m => (m.splitOn " ").filter fun w => w.startsWith "RC-")
        ["RC-1 fix", "RC-2 also RC-1"]).Nodup
    ∧ extractIdsList
        (fun m => (m.splitOn " ").filter fun w => w.startsWith "RC-") [] = []
    ∧ ((∀ m ∈ ["RC-1 fix", "RC-2 also RC-1"],
          (m.splitOn " ").filter (fun w => w.startsWith "RC-") = []) →
        extractIdsList
          (fun m => (m.splitOn " ").filter fun w => w.startsWith "RC-")
          ["RC-1 fix", "RC-2 also RC-1"] = []) :=
  extraction_is_dedup_union _ _

/-! ## C10: extraction is per-message independent -/

/-- C10: extraction distributes over concatenation of commit lists as
a set union: a key is extracted from `commits1 ++ commits2` exactly
when it is extracted from `commits1` or from `commits2` (a fresh regex
is compiled per message, so no matcher state crosses messages), and
the run-level extraction of lines 99-109 computes exactly
`extractIdsList`. -/
theorem extraction_per_message_independent (f : String → List String)
    (commits1 commits2 : List String) :
    (∀ y, y ∈ extractIdsList f (commits1 ++ commits2)
        ↔ y ∈ extractIdsList f commits1 ∨ y ∈ extractIdsList f commits2)
    ∧ extractTicketIds (some f) (commits1 ++ commits2)
        = Except.ok (extractIdsList f (commits1 ++ commits2)) := by
  refine ⟨fun y => ?_, rfl⟩
  simp only [mem_extractIdsList, List.mem_append]
  constructor
  · rintro ⟨m, hm | hm, hy⟩
    · exact Or.inl ⟨m, hm, hy⟩
    · exact Or.inr ⟨m, hm, hy⟩
  · rintro (⟨m, hm, hy⟩ | ⟨m, hm, hy⟩)
    · exact ⟨m, Or.inl hm, hy⟩
    · exact ⟨m, Or.inr hm, hy⟩

/-- C10 witness: the theorem instantiated at two concrete singleton
commit lists. -/
theorem extraction_per_message_independent_witness :
    (∀ y, y ∈ extractIdsList
          (fun m => (m.splitOn " ").filter fun w => w.startsWith "RC-")
          (["RC-1 fix"] ++ ["RC-2 also RC-1"])
        ↔ y ∈ extractIdsList
              (fun m => (m.splitOn " ").filter fun w => w.startsWith "RC-")
              ["RC-1 fix"]
          ∨ y ∈ extractIdsList
              (fun m => (m.splitOn " ").filter fun w => w.startsWith "RC-")
              ["RC-2 also RC-1"])
    ∧ extractTicketIds
        (some fun m => (m.splitOn " ").filter fun w => w.startsWith "RC-")
        (["RC-1 fix"] ++ ["RC-2 also RC-1"])
      = Except.ok (extractIdsList
          (fun m => (m.splitOn " ").filter fun w => w.startsWith "RC-")
          (["RC-1 fix"] ++ ["RC-2 also RC-1"])) :=
  extraction_per_message_independent _ _ _

/-! ## Lemmas about `aggregate` -/

theorem count_childrenFlat_addToGroup (sm : List (String × Group))
    (p : ParentRef) (i : IssueInfo) (a : IssueInfo) :
    (childrenFlat (addToGroup sm p i)).count a
      = (childrenFlat sm).count a + ([i].count a) := by
  induction sm with
  | nil => simp [addToGroup, childrenFlat]
  | cons e rest ih =>
    by_cases h : e.1 = p.key
    · simp only [addToGroup, if_pos h, childrenFlat, List.map_cons,
        List.flatten_cons, List.count_append]
      omega
    · simp only [addToGroup, if_neg h, childrenFlat, List.map_cons,
        List.flatten_cons, List.count_append] at ih ⊢
      omega

theorem count_aggregateAux (infos : List IssueInfo)
    (acc : List (String × Group) × List IssueInfo) (a : IssueInfo) :
    (childrenFlat (aggregateAux acc infos).1).count a
        + (aggregateAux acc infos).2.count a
      = (childrenFlat acc.1).count a + acc.2.count a + infos.count a := by
  induction infos generalizing acc with
  | nil => simp [aggregateAux]
  | cons issue rest ih =>
    rcases hp : issue.parent with _ | p
    · simp only [aggregateAux, hp]
      rw [ih]
      dsimp only
      conv_rhs => rw [← List.singleton_append, List.count_append]
      rw [List.count_append]
      omega
    · simp only [aggregateAux, hp]
      rw [ih]
      dsimp only
      rw [count_childrenFlat_addToGroup]
      conv_rhs => rw [← List.singleton_append, List.count_append]
      omega

theorem aggregateAux_orphans_eq (infos : List IssueInfo)
    (acc : List (String × Group) × List IssueInfo) :
    (aggregateAux acc infos).2
      = acc.2 ++ infos.filter fun i => i.parent.isNone := by
  induction infos generalizing acc with
  | nil => simp [aggregateAux]
  | cons issue rest ih =>
    rcases hp : issue.parent with _ | p
    · simp only [aggregateAux, hp]
      rw [ih]
      simp [List.filter_cons, hp]
    · simp only [aggregateAux, hp]
      rw [ih]
      simp [List.filter_cons, hp]

theorem groupInv_addToGroup (sm : List (String × Group)) (p : ParentRef)
    (i : IssueInfo) (hsm : GroupInv sm) (hi : i.parent = some p) :
    GroupInv (addToGroup sm p i) := by
  induction sm with
  | nil =>
    intro e he c hc
    simp only [addToGroup, List.mem_singleton] at he
    subst he
    simp only [List.mem_singleton] at hc
    subst hc
    exact ⟨p, hi, rfl⟩
  | cons e₀ rest ih =>
    intro e he c hc
    by_cases h : e₀.1 = p.key
    · simp only [addToGroup, if_pos h, List.mem_cons] at he
      rcases he with rfl | he
      · simp only [List.mem_append, List.mem_singleton] at hc
        rcases hc with hc | rfl
        · exact hsm e₀ (List.mem_cons_self _ _) c hc
        · exact ⟨p, hi, h.symm⟩
      · exact hsm e (List.mem_cons_of_mem _ he) c hc
    · simp only [addToGroup, if_neg h, List.mem_cons] at he
      rcases he with rfl | he
      · exact hsm e (List.mem_cons_self _ _) c hc
      · exact ih (fun e' he' => hsm e' (List.mem_cons_of_mem _ he')) e he c hc

theorem groupInv_aggregateAux (infos : List IssueInfo)
    (acc : List (String × Group) × List IssueInfo) (hacc : GroupInv acc.1) :
    GroupInv (aggregateAux acc infos).1 := by
  induction infos generalizing acc with
  | nil => simpa [aggregateAux] using hacc
  | cons issue rest ih =>
    rcases hp : issue.parent with _ | p
    · simp only [aggregateAux, hp]
      exact ih _ hacc
    · simp only [aggregateAux, hp]
      exact ih _ (groupInv_addToGroup acc.1 p issue hacc hp)

theorem mem_keys_addToGroup (sm : List (String × Group)) (p : ParentRef)
    (i : IssueInfo) (k : String)
    (h : k ∈ (addToGroup sm p i).map Prod.fst) :
    k ∈ sm.map Prod.fst ∨ k = p.key := by
  induction sm with
  | nil =>
    simp only [addToGroup, List.map_cons, List.map_nil,
      List.mem_singleton] at h
    exact Or.inr h
  | cons e rest ih =>
    by_cases he : e.1 = p.key
    · simp only [addToGroup, if_pos he, List.map_cons, List.mem_cons] at h
      rcases h with rfl | h
      · exact Or.inl (List.mem_cons_self _ _)
      · exact Or.inl (List.mem_cons_of_mem _ h)
    · simp only [addToGroup, if_neg he, List.map_cons, List.mem_cons] at h
      rcases h with rfl | h
      · exact Or.inl (List.mem_cons_self _ _)
      · rcases ih h with h | h
        · exact Or.inl (List.mem_cons_of_mem _ h)
        · exact Or.inr h

theorem mem_keys_aggregateAux (infos : List IssueInfo)
    (acc : List (String × Group) × List IssueInfo) (k : String)
    (h : k ∈ (aggregateAux acc infos).1.map Prod.fst) :
    k ∈ acc.1.map Prod.fst
      ∨ ∃ i ∈ infos, ∃ p, i.parent = some p ∧ p.key = k := by
  induction infos generalizing acc with
  | nil => exact Or.inl (by simpa [aggregateAux] using h)
  | cons issue rest ih =>
    rcases hp : issue.parent with _ | p
    · simp only [aggregateAux, hp] at h
      rcases ih _ h with h | ⟨i, hi, hpi⟩
      · exact Or.inl h
      · exact Or.inr ⟨i, List.mem_cons_of_mem _ hi, hpi⟩
    · simp only [aggregateAux, hp] at h
      rcases ih _ h with h | ⟨i, hi, hpi⟩
      · rcases mem_keys_addToGroup acc.1 p issue k h with h | rfl
        · exact Or.inl h
        · exact Or.inr ⟨issue, List.mem_cons_self _ _, p, hp, rfl⟩
      · exact Or.inr ⟨i, List.mem_cons_of_mem _ hi, hpi⟩

theorem mem_computeMissingChildren (sm : List (String × Group))
    (ticketIds : List String)
    (childOracle : String → FetchOutcome (List RawChild))
    (missing : List Issue) (issue : Issue)
    (hok : computeMissingChildren sm ticketIds childOracle
      = Except.ok missing)
    (h : issue ∈ missing) :
    ∃ e ∈ sm, ∃ children,
      getStoryChildren (childOracle e.1) = Except.ok children
      ∧ issue ∈ children ∧ issue.key ∉ ticketIds := by
  induction sm generalizing missing with
  | nil =>
    simp only [computeMissingChildren, Except.ok.injEq] at hok
    subst hok
    exact absurd h (List.not_mem_nil issue)
  | cons e rest ih =>
    simp only [computeMissingChildren] at hok
    rcases hc : getStoryChildren (childOracle e.1) with msg | children
    · rw [hc] at hok
      exact absurd hok (by simp)
    · rw [hc] at hok
      rcases hr : computeMissingChildren rest ticketIds childOracle
        with msg | tail
      · rw [hr] at hok
        exact absurd hok (by simp)
      · rw [hr] at hok
        simp only [Except.ok.injEq] at hok
        subst hok
        rcases List.mem_append.mp h with hm | hm
        · rcases List.mem_filter.mp hm with ⟨hmem, hkey⟩
          refine ⟨e, List.mem_cons_self _ _, children, hc, hmem, ?_⟩
          simpa using hkey
        · rcases ih tail hr hm with ⟨e', he', children', hc', hm', hk'⟩
          exact ⟨e', List.mem_cons_of_mem _ he', children', hc', hm', hk'⟩

/-! ## C2: aggregation is a partition -/

/-- C2: the aggregation of lines 156-169 is a partition of the fetched
issues: the concatenation of all group children with the orphan list
is a permutation of the input (each issue lands in exactly one place);
the orphan list is exactly the parentless issues in order; every child
stored under a group key carries a parent with that key; and
`getJiraIssueInfo` attaches a parent exactly when the tracker response
reported a parent whose issue-type name is `"Story"`. -/
theorem aggregation_is_partition (jiraIssuesInfo : List IssueInfo) :
    (childrenFlat (aggregate jiraIssuesInfo).1
        ++ (aggregate jiraIssuesInfo).2).Perm jiraIssuesInfo
    ∧ ((aggregate jiraIssuesInfo).2
        = jiraIssuesInfo.filter fun i => i.parent.isNone)
    ∧ (∀ e ∈ (aggregate jiraIssuesInfo).1, ∀ c ∈ e.2.children,
        ∃ p, c.parent = some p ∧ p.key = e.1)
    ∧ (∀ issueKey data info,
        getJiraIssueInfo issueKey (FetchOutcome.resolve (some data))
            = Except.ok (some info) →
          (info.parent.isSome
            ↔ ∃ p, data.parent = some p ∧ p.issuetype = "Story")) := by
  refine ⟨?_, ?_, ?_, ?_⟩
  · rw [List.perm_iff_count]
    intro a
    rw [List.count_append]
    have h := count_aggregateAux jiraIssuesInfo ([], []) a
    simpa [childrenFlat] using h
  · simpa using aggregateAux_orphans_eq jiraIssuesInfo ([], [])
  · exact groupInv_aggregateAux jiraIssuesInfo ([], [])
      (fun e he => absurd he (List.not_mem_nil e))
  · intro issueKey data info h
    simp only [getJiraIssueInfo, Except.ok.injEq, Option.some.injEq] at h
    subst h
    rcases hd : data.parent with _ | p
    · simp [hd]
    · by_cases hs : p.issuetype = "Story"
      · simp [hd, hs]
      · simp [hd, hs]

/-- C2 witness: the theorem instantiated at the spec's scenario,
`RC-1` with Story parent `RC-10` and parentless `RC-2`. -/
theorem aggregation_is_partition_witness :
    (childrenFlat (aggregate
          [⟨"RC-1", "Task", "t1", some ⟨"RC-10", "Story", "s"⟩⟩,
           ⟨"RC-2", "Bug", "t2", none⟩]).1
        ++ (aggregate
          [⟨"RC-1", "Task", "t1", some ⟨"RC-10", "Story", "s"⟩⟩,
           ⟨"RC-2", "Bug", "t2", none⟩]).2).Perm
      [⟨"RC-1", "Task", "t1", some ⟨"RC-10", "Story", "s"⟩⟩,
       ⟨"RC-2", "Bug", "t2", none⟩]
    ∧ ((aggregate
          [⟨"RC-1", "Task", "t1", some ⟨"RC-10", "Story", "s"⟩⟩,
           ⟨"RC-2", "Bug", "t2", none⟩]).2
        = [⟨"RC-1", "Task", "t1", some ⟨"RC-10", "Story", "s"⟩⟩,
           (⟨"RC-2", "Bug", "t2", none⟩ : IssueInfo)].filter
            fun i => i.parent.isNone)
    ∧ (∀ e ∈ (aggregate
          [⟨"RC-1", "Task", "t1", some ⟨"RC-10", "Story", "s"⟩⟩,
           ⟨"RC-2", "Bug", "t2", none⟩]).1, ∀ c ∈ e.2.children,
        ∃ p, c.parent = some p ∧ p.key = e.1)
    ∧ (∀ issueKey data info,
        getJiraIssueInfo issueKey (FetchOutcome.resolve (some data))
            = Except.ok (some info) →
          (info.parent.isSome
            ↔ ∃ p, data.parent = some p ∧ p.issuetype = "Story")) :=
  aggregation_is_partition _

/-! ## C1: missing children come from tracked parents only -/

/-- C1: an issue in the missing-child list was returned by the child
oracle for a key that occurs as the `"Story"`-parent key of at least
one fetched issue (a key of the story map, never a parent outside it),
and its key is not in the committed-key set `ticketIds`. -/
theorem missing_children_from_tracked_parents (jiraIssuesInfo : List IssueInfo)
    (ticketIds : List String)
    (childOracle : String → FetchOutcome (List RawChild))
    (missing : List Issue) (issue : Issue)
    (hok : computeMissingChildren (aggregate jiraIssuesInfo).1 ticketIds
      childOracle = Except.ok missing)
    (h : issue ∈ missing) :
    (∃ k, (∃ i ∈ jiraIssuesInfo, ∃ p, i.parent = some p ∧ p.key = k)
        ∧ ∃ children, getStoryChildren (childOracle k) = Except.ok children
            ∧ issue ∈ children)
    ∧ issue.key ∉ ticketIds := by
  rcases mem_computeMissingChildren _ _ _ _ _ hok h
    with ⟨e, he, children, hc, hmem, hkey⟩
  refine ⟨⟨e.1, ?_, children, hc, hmem⟩, hkey⟩
  have hk : e.1 ∈ (aggregate jiraIssuesInfo).1.map Prod.fst :=
    List.mem_map.mpr ⟨e, he, rfl⟩
  rcases mem_keys_aggregateAux jiraIssuesInfo ([], []) e.1 hk with h0 | h0
  · exact absurd h0 (by simp)
  · exact h0

/-- C1 witness: the spec's scenario — `RC-1` has Story parent `RC-10`,
the tracker reports `RC-10`'s children as `[RC-1, RC-3]`, commits
reference `{RC-1, RC-2}`, and `RC-3` ends up missing. -/
theorem missing_children_from_tracked_parents_witness :
    (computeMissingChildren
        (aggregate
          [⟨"RC-1", "Task", "t1", some ⟨"RC-10", "Story", "s"⟩⟩]).1
        ["RC-1", "RC-2"]
        (fun k => if k = "RC-10" then
          FetchOutcome.resolve
            (some [⟨"RC-1", "Task", "t1"⟩, ⟨"RC-3", "Task", "t3"⟩])
          else FetchOutcome.resolve none)
      = Except.ok [⟨"RC-3", "Task", "t3"⟩])
    ∧ ((⟨"RC-3", "Task", "t3"⟩ : Issue) ∈ [(⟨"RC-3", "Task", "t3"⟩ : Issue)])
    ∧ ((∃ k, (∃ i ∈ [(⟨"RC-1", "Task", "t1",
            some ⟨"RC-10", "Story", "s"⟩⟩ : IssueInfo)],
          ∃ p, i.parent = some p ∧ p.key = k)
        ∧ ∃ children, getStoryChildren
            ((fun k => if k = "RC-10" then
              FetchOutcome.resolve
                (some [⟨"RC-1", "Task", "t1"⟩, ⟨"RC-3", "Task", "t3"⟩])
              else FetchOutcome.resolve none) k) = Except.ok children
            ∧ (⟨"RC-3", "Task", "t3"⟩ : Issue) ∈ children)
      ∧ (⟨"RC-3", "Task", "t3"⟩ : Issue).key ∉ ["RC-1", "RC-2"]) :=
  ⟨rfl, by decide,
    missing_children_from_tracked_parents _ _ _ _ _ rfl (by decide)⟩

/-! ## C9: committed keys never appear in the missing-child list -/

theorem getJiraIssueInfo_key (t : String) (r : FetchOutcome RawIssueData)
    (info : IssueInfo) (h : getJiraIssueInfo t r = Except.ok (some info)) :
    info.key = t := by
  rcases r with msg | r
  · exact absurd h (by simp [getJiraIssueInfo])
  · rcases r with _ | d
    · exact absurd h (by simp [getJiraIssueInfo])
    · simp only [getJiraIssueInfo, Except.ok.injEq, Option.some.injEq] at h
      subst h
      rfl

theorem mem_fetchIssues (l : List String)
    (oracle : String → FetchOutcome RawIssueData)
    (infos : List (Option IssueInfo))
    (h : fetchIssues l oracle = Except.ok infos) (info : IssueInfo)
    (hm : info ∈ infos.filterMap id) :
    ∃ t ∈ l, getJiraIssueInfo t (oracle t) = Except.ok (some info) := by
  induction l generalizing infos with
  | nil =>
    simp only [fetchIssues, Except.ok.injEq] at h
    subst h
    exact absurd hm (by simp)
  | cons t rest ih =>
    simp only [fetchIssues] at h
    rcases hv : getJiraIssueInfo t (oracle t) with msg | v
    · rw [hv] at h
      exact absurd h (by simp)
    · rw [hv] at h
      rcases hr : fetchIssues rest oracle with msg | tail
      · rw [hr] at h
        exact absurd h (by simp)
      · rw [hr] at h
        simp only [Except.ok.injEq] at h
        subst h
        simp only [List.filterMap_cons] at hm
        rcases v with _ | a
        · rcases ih tail hr hm with ⟨t', ht', h'⟩
          exact ⟨t', List.mem_cons_of_mem _ ht', h'⟩
        · rcases List.mem_cons.mp hm with rfl | hm'
          · exact ⟨t, List.mem_cons_self _ _, hv⟩
          · rcases ih tail hr hm' with ⟨t', ht', h'⟩
            exact ⟨t', List.mem_cons_of_mem _ ht', h'⟩

/-- C9: at the point where `run` computes the missing-child list — the
story map built from the absence-filtered fetch results, but the
membership test taken against the full extracted key list — a key `k`
that was extracted from the commits never appears as a missing child,
even when its metadata fetch returned a non-success response
(`issueOracle k = resolve none`) so that `k` is in no group and in no
orphan list. -/
theorem extracted_key_never_in_missing (f : String → List String)
    (commits : List String)
    (issueOracle : String → FetchOutcome RawIssueData)
    (childOracle : String → FetchOutcome (List RawChild)) (k : String)
    (infos : List (Option IssueInfo)) (missing : List Issue) (issue : Issue)
    (hk : k ∈ extractIdsList f commits)
    (hfail : issueOracle k = FetchOutcome.resolve none)
    (hfetch : fetchIssues (extractIdsList f commits) issueOracle
      = Except.ok infos)
    (hok : computeMissingChildren (aggregate (infos.filterMap id)).1
      (extractIdsList f commits) childOracle = Except.ok missing)
    (h : issue ∈ missing) :
    getJiraIssueInfo k (issueOracle k) = Except.ok none
    ∧ (∀ info ∈ infos.filterMap id, info.key ≠ k)
    ∧ issue.key ≠ k ∧ issue.key ∉ extractIdsList f commits := by
  rcases mem_computeMissingChildren _ _ _ _ _ hok h
    with ⟨e, he, children, hc, hmem, hkey⟩
  refine ⟨by rw [hfail]; rfl, ?_, fun hek => hkey (hek ▸ hk), hkey⟩
  intro info hm hik
  rcases mem_fetchIssues _ _ _ hfetch info hm with ⟨t, ht, hinfo⟩
  have hkt : info.key = t := getJiraIssueInfo_key t _ info hinfo
  rw [hik] at hkt
  rw [← hkt, hfail] at hinfo
  exact absurd hinfo (by simp [getJiraIssueInfo])

/-- C9 witness: commits mention `RC-1` and `RC-2`; the fetch for
`RC-2` fails; `RC-1`'s Story parent `RC-10` has child `RC-3`; the
missing child `RC-3` is neither `RC-2` nor any extracted key. -/
theorem extracted_key_never_in_missing_witness :
    ("RC-2" ∈ extractIdsList
        (fun m => if m = "RC-1 RC-2" then ["RC-1", "RC-2"] else [])
        ["RC-1 RC-2"])
    ∧ ((fun t => if t = "RC-1" then
          FetchOutcome.resolve
            (some (⟨"Task", "t1", some ⟨"RC-10", "Story", "s"⟩⟩ :
              RawIssueData))
          else FetchOutcome.resolve none) "RC-2"
        = FetchOutcome.resolve none)
    ∧ (fetchIssues (extractIdsList
          (fun m => if m = "RC-1 RC-2" then ["RC-1", "RC-2"] else [])
          ["RC-1 RC-2"])
        (fun t => if t = "RC-1" then
          FetchOutcome.resolve
            (some (⟨"Task", "t1", some ⟨"RC-10", "Story", "s"⟩⟩ :
              RawIssueData))
          else FetchOutcome.resolve none)
      = Except.ok
          [some ⟨"RC-1", "Task", "t1", some ⟨"RC-10", "Story", "s"⟩⟩, none])
    ∧ (computeMissingChildren
        (aggregate ([some (⟨"RC-1", "Task", "t1",
            some ⟨"RC-10", "Story", "s"⟩⟩ : IssueInfo),
          none].filterMap id)).1
        (extractIdsList
          (fun m => if m = "RC-1 RC-2" then ["RC-1", "RC-2"] else [])
          ["RC-1 RC-2"])
        (fun k => if k = "RC-10" then
          FetchOutcome.resolve (some [⟨"RC-3", "Task", "t3"⟩])
          else FetchOutcome.resolve none)
      = Except.ok [⟨"RC-3", "Task", "t3"⟩])
    ∧ ((⟨"RC-3", "Task", "t3"⟩ : Issue) ∈ [(⟨"RC-3", "Task", "t3"⟩ : Issue)])
    ∧ (getJiraIssueInfo "RC-2" ((fun t => if t = "RC-1" then
          FetchOutcome.resolve
            (some (⟨"Task", "t1", some ⟨"RC-10", "Story", "s"⟩⟩ :
              RawIssueData))
          else FetchOutcome.resolve none) "RC-2") = Except.ok none
      ∧ (∀ info ∈ ([some ⟨"RC-1", "Task", "t1",
            some ⟨"RC-10", "Story", "s"⟩⟩,
          none] : List (Option IssueInfo)).filterMap id,
          info.key ≠ "RC-2")
      ∧ (⟨"RC-3", "Task", "t3"⟩ : Issue).key ≠ "RC-2"
      ∧ (⟨"RC-3", "Task", "t3"⟩ : Issue).key ∉ extractIdsList
          (fun m => if m = "RC-1 RC-2" then ["RC-1", "RC-2"] else [])
          ["RC-1 RC-2"]) :=
  ⟨by decide, rfl, rfl, rfl, by decide,
    extracted_key_never_in_missing
      (fun m => if m = "RC-1 RC-2" then ["RC-1", "RC-2"] else [])
      ["RC-1 RC-2"]
      (fun t => if t = "RC-1" then
        FetchOutcome.resolve
          (some (⟨"Task", "t1", some ⟨"RC-10", "Story", "s"⟩⟩ :
            RawIssueData))
        else FetchOutcome.resolve none)
      (fun k => if k = "RC-10" then
        FetchOutcome.resolve (some [⟨"RC-3", "Task", "t3"⟩])
        else FetchOutcome.resolve none)
      "RC-2"
      [some ⟨"RC-1", "Task", "t1", some ⟨"RC-10", "Story", "s"⟩⟩, none]
      [⟨"RC-3", "Task", "t3"⟩] ⟨"RC-3", "Task", "t3"⟩
      (by decide) rfl rfl rfl (by decide)⟩

/-! ## C6: the renderer is a deterministic function with omitted empty
sections -/

/-- C6: the report of lines 190-219 is a function of the story map,
orphan list and missing-child list alone (identical inputs give
byte-identical text); the group blocks, the orphan section and the
missing-child section each render to the empty string on an empty
input (no header is emitted); with all three empty the report is
exactly the top header `"### Related Jira Issues"` followed by the
blank line, with no sub-sections. -/
theorem renderer_deterministic (baseUrl : String)
    (sm sm' : List (String × Group)) (o o' : List IssueInfo)
    (m m' : List Issue) (h1 : sm = sm') (h2 : o = o') (h3 : m = m') :
    renderReport sm o m baseUrl = renderReport sm' o' m' baseUrl
    ∧ renderStoryBlocks baseUrl [] = ""
    ∧ renderOrphanSection baseUrl [] = ""
    ∧ renderMissingSection baseUrl [] = ""
    ∧ renderReport [] [] [] baseUrl = "### Related Jira Issues\n\n" := by
  subst h1; subst h2; subst h3
  refine ⟨rfl, rfl, rfl, rfl, ?_⟩
  show "### Related Jira Issues\n\n" ++ "" ++ "" ++ "" = _
  simp

/-- C6 witness: the theorem instantiated at equal concrete inputs. -/
theorem renderer_deterministic_witness :
    renderReport [("RC-10", ⟨⟨"RC-10", "Story", "s"⟩, []⟩)] []
        [⟨"RC-3", "Task", "t3"⟩] "u"
      = renderReport [("RC-10", ⟨⟨"RC-10", "Story", "s"⟩, []⟩)] []
          [⟨"RC-3", "Task", "t3"⟩] "u"
    ∧ renderStoryBlocks "u" [] = ""
    ∧ renderOrphanSection "u" [] = ""
    ∧ renderMissingSection "u" [] = ""
    ∧ renderReport [] [] [] "u" = "### Related Jira Issues\n\n" :=
  renderer_deterministic "u" _ _ _ _ _ _ rfl rfl rfl

/-! ## C7: a failed child-list query degrades to zero children -/

/-- C7: `getStoryChildren` turns a failed query (a non-success
response, `resolve none`) into the empty child list, and a story-map
key whose child query fails this way contributes nothing to the
missing-child list while every other key's contribution is unchanged:
the computed value equals the one obtained from the story map with the
failing key's entries removed. -/
theorem child_fetch_failure_degrades (sm : List (String × Group))
    (ticketIds : List String)
    (childOracle : String → FetchOutcome (List RawChild))
    (k : String) (hfail : childOracle k = FetchOutcome.resolve none) :
    getStoryChildren (FetchOutcome.resolve none) = Except.ok []
    ∧ computeMissingChildren sm ticketIds childOracle
        = computeMissingChildren (sm.filter fun e => e.1 != k) ticketIds
            childOracle := by
  refine ⟨rfl, ?_⟩
  induction sm with
  | nil => rfl
  | cons e rest ih =>
    by_cases he : e.1 = k
    · have hskip : computeMissingChildren (e :: rest) ticketIds childOracle
          = computeMissingChildren rest ticketIds childOracle := by
        simp only [computeMissingChildren, he, hfail, getStoryChildren]
        rcases computeMissingChildren rest ticketIds childOracle
          with msg | tail
        · rfl
        · simp
      rw [hskip, ih]
      congr 1
      simp [List.filter_cons, he]
    · have hbne : (e.1 != k) = true := by simpa using he
      simp only [List.filter_cons, hbne, if_true]
      simp only [computeMissingChildren]
      rw [ih]

/-- C7 witness: a two-group story map where the query for `RC-10`
fails and the one for `RC-20` succeeds and still contributes. -/
theorem child_fetch_failure_degrades_witness :
    ((fun q => if q = "RC-20" then
        FetchOutcome.resolve (some [(⟨"RC-5", "Task", "t5"⟩ : RawChild)])
        else FetchOutcome.resolve none) "RC-10" = FetchOutcome.resolve none)
    ∧ (getStoryChildren (FetchOutcome.resolve none) = Except.ok []
      ∧ computeMissingChildren
          [("RC-10", ⟨⟨"RC-10", "Story", "sa"⟩, []⟩),
           ("RC-20", ⟨⟨"RC-20", "Story", "sb"⟩, []⟩)] ["RC-1"]
          (fun q => if q = "RC-20" then
            FetchOutcome.resolve (some [(⟨"RC-5", "Task", "t5"⟩ : RawChild)])
            else FetchOutcome.resolve none)
        = computeMissingChildren
            ([("RC-10", ⟨⟨"RC-10", "Story", "sa"⟩, []⟩),
              ("RC-20", ⟨⟨"RC-20", "Story", "sb"⟩, []⟩)].filter
              fun e => e.1 != "RC-10") ["RC-1"]
            (fun q => if q = "RC-20" then
              FetchOutcome.resolve
                (some [(⟨"RC-5", "Task", "t5"⟩ : RawChild)])
              else FetchOutcome.resolve none)) :=
  ⟨by decide,
    child_fetch_failure_degrades
      [("RC-10", ⟨⟨"RC-10", "Story", "sa"⟩, []⟩),
       ("RC-20", ⟨⟨"RC-20", "Story", "sb"⟩, []⟩)] ["RC-1"]
      (fun q => if q = "RC-20" then
        FetchOutcome.resolve (some [(⟨"RC-5", "Task", "t5"⟩ : RawChild)])
        else FetchOutcome.resolve none)
      "RC-10" (by decide)⟩

/-! ## C4: per-issue fetch failure handling -/

theorem getJiraIssueInfo_ok_of_noreject (t : String)
    (oracle : String → FetchOutcome RawIssueData)
    (hres : ∀ msg, oracle t ≠ FetchOutcome.reject msg) :
    ∃ v, getJiraIssueInfo t (oracle t) = Except.ok v := by
  rcases ho : oracle t with msg | r
  · exact absurd ho (hres msg)
  · rcases r with _ | d
    · exact ⟨none, rfl⟩
    · exact ⟨_, rfl⟩

theorem fetchIssues_ok_of_noreject (l : List String)
    (oracle : String → FetchOutcome RawIssueData)
    (hres : ∀ t msg, oracle t ≠ FetchOutcome.reject msg) :
    ∃ infos, fetchIssues l oracle = Except.ok infos := by
  induction l with
  | nil => exact ⟨[], rfl⟩
  | cons t rest ih =>
    rcases getJiraIssueInfo_ok_of_noreject t oracle (hres t) with ⟨v, hv⟩
    rcases ih with ⟨tail, htail⟩
    exact ⟨v :: tail, by simp [fetchIssues, hv, htail]⟩

theorem computeMissingChildren_ok_of_noreject (sm : List (String × Group))
    (ticketIds : List String)
    (oracle : String → FetchOutcome (List RawChild))
    (hres : ∀ s msg, oracle s ≠ FetchOutcome.reject msg) :
    ∃ missing, computeMissingChildren sm ticketIds oracle
      = Except.ok missing := by
  induction sm with
  | nil => exact ⟨[], rfl⟩
  | cons e rest ih =>
    have hc : ∃ cs, getStoryChildren (oracle e.1) = Except.ok cs := by
      rcases ho : oracle e.1 with msg | r
      · exact absurd ho (hres e.1 msg)
      · rcases r with _ | issues
        · exact ⟨[], rfl⟩
        · exact ⟨_, rfl⟩
    rcases hc with ⟨cs, hcs⟩
    rcases ih with ⟨tail, htail⟩
    refine ⟨(cs.filter fun child => !(ticketIds.contains child.key)) ++ tail,
      ?_⟩
    simp only [computeMissingChildren, hcs, htail]

theorem fetchIssues_skip_nonsuccess (l : List String)
    (oracle : String → FetchOutcome RawIssueData) (k : String)
    (hfail : oracle k = FetchOutcome.resolve none)
    (infos infos' : List (Option IssueInfo))
    (h : fetchIssues l oracle = Except.ok infos)
    (h' : fetchIssues (l.filter fun t => t != k) oracle = Except.ok infos') :
    infos.filterMap id = infos'.filterMap id := by
  induction l generalizing infos infos' with
  | nil =>
    simp only [fetchIssues, Except.ok.injEq] at h
    simp only [List.filter_nil, fetchIssues, Except.ok.injEq] at h'
    subst h
    subst h'
    rfl
  | cons t rest ih =>
    by_cases ht : t = k
    · subst ht
      rw [List.filter_cons_of_neg (by simp)] at h'
      simp only [fetchIssues, hfail, getJiraIssueInfo] at h
      rcases hr : fetchIssues rest oracle with msg | tail
      · rw [hr] at h
        exact absurd h (by simp)
      · rw [hr] at h
        simp only [Except.ok.injEq] at h
        subst h
        simp only [List.filterMap_cons]
        exact ih tail infos' hr h'
    · rw [List.filter_cons_of_pos (by simpa using ht)] at h'
      simp only [fetchIssues] at h h'
      rcases hv : getJiraIssueInfo t (oracle t) with msg | v
      · rw [hv] at h
        exact absurd h (by simp)
      · rw [hv] at h h'
        rcases hr : fetchIssues rest oracle with msg | tail
        · rw [hr] at h
          exact absurd h (by simp)
        · rw [hr] at h
          rcases hr' : fetchIssues (rest.filter fun t => t != k) oracle
            with msg | tail'
          · rw [hr'] at h'
            exact absurd h' (by simp)
          · rw [hr'] at h'
            simp only [Except.ok.injEq] at h h'
            subst h
            subst h'
            simp only [List.filterMap_cons]
            rcases v with _ | a
            · exact ih tail tail' hr hr'
            · rw [ih tail tail' hr hr']

/-- C4 counterexample: the claim covers "the tracker being
unreachable", but an unreachable tracker makes `fetch` reject, the
`await` at line 6 rethrows, nothing inside `getJiraIssueInfo` catches
it, `Promise.all` (line 117) rejects, and the top-level catch (line
138) fails the whole run — it is not degraded to a warning plus an
absent value.  Concretely: one extracted key whose lookup rejects
makes the run end in `core.setFailed("network error")`. -/
theorem issue_fetch_rejection_aborts_run :
    run { hasPullRequest := true, prNumber := some 1,
          commits := ["RC-1 fix"],
          matcher := some fun m => if m = "RC-1 fix" then ["RC-1"] else [],
          baseUrl := "u",
          issueOracle := fun _ => FetchOutcome.reject "network error",
          childOracle := fun _ => FetchOutcome.resolve none }
      = (RunResult.failed "network error", ["RC-1"]) := by decide

/-- C4 amended: a per-issue lookup that yields a non-success tracker
response (`resolve none`) degrades: `getJiraIssueInfo` returns
absence, the `.filter(Boolean)` of line 125 removes it from the
working set (fetching with the failed key dropped from the ticket list
yields the same working set, so the remaining issues are still
processed), and — provided no lookup's and no child query's underlying
fetch rejects — the run never ends in `core.setFailed`.  (A rejected
fetch, e.g. an unreachable tracker, instead aborts the run, per the
counterexample.) -/
theorem issue_fetch_failure_degrades (env : RunEnv) (f : String → List String)
    (n : Nat) (k : String) (hpr : env.hasPullRequest = true)
    (hn : env.prNumber = some n) (hn0 : n ≠ 0)
    (hpat : env.matcher = some f)
    (hfail : env.issueOracle k = FetchOutcome.resolve none)
    (hnreji : ∀ t msg, env.issueOracle t ≠ FetchOutcome.reject msg)
    (hnrejc : ∀ s msg, env.childOracle s ≠ FetchOutcome.reject msg) :
    getJiraIssueInfo k (env.issueOracle k) = Except.ok none
    ∧ (∀ msg, (run env).1 ≠ RunResult.failed msg)
    ∧ (∀ infos infos',
        fetchIssues (extractIdsList f env.commits) env.issueOracle
          = Except.ok infos →
        fetchIssues ((extractIdsList f env.commits).filter fun t => t != k)
          env.issueOracle = Except.ok infos' →
        infos.filterMap id = infos'.filterMap id) := by
  refine ⟨by rw [hfail]; rfl, ?_, ?_⟩
  · intro msg
    simp only [run, hpr, hn, hpat, Bool.not_true, Bool.false_eq_true,
      if_false, extractTicketIds]
    rw [if_neg hn0]
    by_cases hlen : (extractIdsList f env.commits).length = 0
    · rw [if_pos hlen]
      simp
    · rw [if_neg hlen]
      rcases fetchIssues_ok_of_noreject (extractIdsList f env.commits)
        env.issueOracle hnreji with ⟨infos, hinfos⟩
      rw [hinfos]
      rcases computeMissingChildren_ok_of_noreject
        (aggregate (infos.filterMap id)).1 (extractIdsList f env.commits)
        env.childOracle hnrejc with ⟨missing, hmissing⟩
      simp only [generateStructuredOutput, hmissing]
      simp
  · intro infos infos' h h'
    exact fetchIssues_skip_nonsuccess _ _ k hfail infos infos' h h'

/-- C4 witness: commits reference `RC-1` and `RC-2`, the lookup for
`RC-2` returns a non-success response, no fetch rejects, and the run
completes with `RC-1` still processed. -/
theorem issue_fetch_failure_degrades_witness :
    (({ hasPullRequest := true, prNumber := some 1,
        commits := ["RC-1 RC-2"],
        matcher := some fun m =>
          if m = "RC-1 RC-2" then ["RC-1", "RC-2"] else [],
        baseUrl := "u",
        issueOracle := fun t =>
          if t = "RC-1" then
            FetchOutcome.resolve
              (some (⟨"Task", "t1", none⟩ : RawIssueData))
          else FetchOutcome.resolve none,
        childOracle := fun _ => FetchOutcome.resolve none } :
          RunEnv).issueOracle "RC-2" = FetchOutcome.resolve none)
    ∧ (getJiraIssueInfo "RC-2"
          ((fun t =>
            if t = "RC-1" then
              FetchOutcome.resolve
                (some (⟨"Task", "t1", none⟩ : RawIssueData))
            else FetchOutcome.resolve none) "RC-2") = Except.ok none
      ∧ (∀ msg, (run
          { hasPullRequest := true, prNumber := some 1,
            commits := ["RC-1 RC-2"],
            matcher := some fun m =>
              if m = "RC-1 RC-2" then ["RC-1", "RC-2"] else [],
            baseUrl := "u",
            issueOracle := fun t =>
              if t = "RC-1" then
                FetchOutcome.resolve
                  (some (⟨"Task", "t1", none⟩ : RawIssueData))
              else FetchOutcome.resolve none,
            childOracle := fun _ => FetchOutcome.resolve none }).1
          ≠ RunResult.failed msg)
      ∧ (∀ infos infos',
          fetchIssues (extractIdsList
              (fun m => if m = "RC-1 RC-2" then ["RC-1", "RC-2"] else [])
              ["RC-1 RC-2"])
            (fun t =>
              if t = "RC-1" then
                FetchOutcome.resolve
                  (some (⟨"Task", "t1", none⟩ : RawIssueData))
              else FetchOutcome.resolve none) = Except.ok infos →
          fetchIssues ((extractIdsList
              (fun m => if m = "RC-1 RC-2" then ["RC-1", "RC-2"] else [])
              ["RC-1 RC-2"]).filter fun t => t != "RC-2")
            (fun t =>
              if t = "RC-1" then
                FetchOutcome.resolve
                  (some (⟨"Task", "t1", none⟩ : RawIssueData))
              else FetchOutcome.resolve none) = Except.ok infos' →
          infos.filterMap id = infos'.filterMap id)) :=
  ⟨rfl,
    issue_fetch_failure_degrades
      { hasPullRequest := true, prNumber := some 1,
        commits := ["RC-1 RC-2"],
        matcher := some fun m =>
          if m = "RC-1 RC-2" then ["RC-1", "RC-2"] else [],
        baseUrl := "u",
        issueOracle := fun t =>
          if t = "RC-1" then
            FetchOutcome.resolve (some (⟨"Task", "t1", none⟩ : RawIssueData))
          else FetchOutcome.resolve none,
        childOracle := fun _ => FetchOutcome.resolve none }
      (fun m => if m = "RC-1 RC-2" then ["RC-1", "RC-2"] else [])
      1 "RC-2" rfl rfl (by decide) rfl (by decide)
      (by intro t msg; by_cases ht : t = "RC-1" <;> simp [ht])
      (by intro s msg; simp)⟩

/-! ## C5: empty extraction short-circuits with a notice -/

/-- C5: on a pull-request run with a valid pattern, if the extracted
key list is empty the run returns the notice outcome and the issued
Jira request list is empty — no tracker call is made and no
description update is issued. -/
theorem empty_extraction_short_circuits (env : RunEnv)
    (f : String → List String) (n : Nat) (hpr : env.hasPullRequest = true)
    (hn : env.prNumber = some n) (hn0 : n ≠ 0)
    (hpat : env.matcher = some f)
    (hempty : extractIdsList f env.commits = []) :
    run env = (RunResult.notice, []) := by
  simp only [run, hpr, hn, hpat, Bool.not_true, Bool.false_eq_true, if_false,
    extractTicketIds]
  rw [if_neg hn0, hempty]
  rfl

/-- C5 witness: a commit list in which the matcher finds nothing. -/
theorem empty_extraction_short_circuits_witness :
    (({ hasPullRequest := true, prNumber := some 7,
        commits := ["chore: no ticket here"], matcher := some fun _ => [],
        baseUrl := "u", issueOracle := fun _ => FetchOutcome.resolve none,
        childOracle := fun _ => FetchOutcome.resolve none } : RunEnv).hasPullRequest = true)
    ∧ extractIdsList (fun _ => []) ["chore: no ticket here"] = []
    ∧ run
        { hasPullRequest := true, prNumber := some 7,
          commits := ["chore: no ticket here"], matcher := some fun _ => [],
          baseUrl := "u", issueOracle := fun _ => FetchOutcome.resolve none,
          childOracle := fun _ => FetchOutcome.resolve none }
      = (RunResult.notice, []) :=
  ⟨rfl, by decide,
    empty_extraction_short_circuits
      { hasPullRequest := true, prNumber := some 7,
        commits := ["chore: no ticket here"], matcher := some fun _ => [],
        baseUrl := "u", issueOracle := fun _ => FetchOutcome.resolve none,
        childOracle := fun _ => FetchOutcome.resolve none }
      (fun _ => []) 7 rfl rfl (by decide) rfl (by decide)⟩

/-! ## C8: an invalid pattern fails the run — except on an empty
commit list -/

/-- C8 counterexample: `new RegExp(jiraTicketPattern, "g")` is
compiled inside the `commits.map` callback (line 103), so with an
invalid pattern and an empty commit list the callback never runs, no
`SyntaxError` is thrown, the extracted list is empty and the run ends
with the notice — not with a configuration failure, contradicting the
claim's "regardless of the commit list supplied". -/
theorem invalid_pattern_empty_commits_no_failure :
    run { hasPullRequest := true, prNumber := some 1, commits := [],
          matcher := none, baseUrl := "u", issueOracle := fun _ => FetchOutcome.resolve none,
          childOracle := fun _ => FetchOutcome.resolve none }
      = (RunResult.notice, []) := rfl

/-- C8 amended: on a pull-request run whose configured pattern is
invalid and whose commit list is nonempty, the run fails fast with the
regex configuration error as the run's failure reason. -/
theorem invalid_pattern_fails_run (env : RunEnv) (n : Nat)
    (hpr : env.hasPullRequest = true) (hn : env.prNumber = some n)
    (hn0 : n ≠ 0) (hpat : env.matcher = none) (hc : env.commits ≠ []) :
    (run env).1 = RunResult.failed invalidRegexMessage := by
  simp only [run, hpr, hn, hpat, Bool.not_true, Bool.false_eq_true, if_false,
    extractTicketIds]
  rw [if_neg hn0]
  rcases hcs : env.commits with _ | ⟨c, cs⟩
  · exact absurd hcs hc
  · rfl

/-- C8 amended witness: an invalid pattern with one commit message. -/
theorem invalid_pattern_fails_run_witness :
    (({ hasPullRequest := true, prNumber := some 1, commits := ["RC-1 fix"],
        matcher := none, baseUrl := "u", issueOracle := fun _ => FetchOutcome.resolve none,
        childOracle := fun _ => FetchOutcome.resolve none } : RunEnv).matcher
        = (none : Option (String → List String)))
    ∧ (({ hasPullRequest := true, prNumber := some 1,
          commits := ["RC-1 fix"],
          matcher := none, baseUrl := "u", issueOracle := fun _ => FetchOutcome.resolve none,
          childOracle := fun _ => FetchOutcome.resolve none } : RunEnv).commits ≠ [])
    ∧ (run
        { hasPullRequest := true, prNumber := some 1, commits := ["RC-1 fix"],
          matcher := none, baseUrl := "u", issueOracle := fun _ => FetchOutcome.resolve none,
          childOracle := fun _ => FetchOutcome.resolve none }).1
      = RunResult.failed invalidRegexMessage :=
  ⟨rfl, by decide,
    invalid_pattern_fails_run
      { hasPullRequest := true, prNumber := some 1, commits := ["RC-1 fix"],
        matcher := none, baseUrl := "u", issueOracle := fun _ => FetchOutcome.resolve none,
        childOracle := fun _ => FetchOutcome.resolve none }
      1 rfl rfl (by decide) rfl (by decide)⟩

end PrJiraChecker
